import Mathlib

/-!
Verification development for the weapon / target / network-synchronization core
of the repository (an FPS prototype).  The shallow embedding below translates:

* the `Weapon` class of the weapon module (bullet trails, colliders, the
  fire-rate gate, ammo handling, and the swept bullet-collision query), and
* the network event handlers of `src/scene.js` (`onTargetHit`,
  `onTargetDestroyed`, `processGameState` and its retry-with-delay polling).

JavaScript numbers are modelled as exact rationals (`Rat`) where fractional
arithmetic occurs (timers, positions, opacities) and as integers (`Int`) for
counts (ammo, health, score, points).  The `TargetManager` class lives in
`targets.js`, which is not part of the sources; the handful of its methods the
scene handlers call (`createTarget`, `clearAllTargets`, `destroyTargetById`)
are modelled from the specification and marked as such in their doc comments.
-/

/-- A 3-component vector of exact rationals, modelling `THREE.Vector3`. -/
structure Vec3 where
  x : ℚ
  y : ℚ
  z : ℚ
deriving DecidableEq, Repr

instance : Add Vec3 := ⟨fun a b => ⟨a.x + b.x, a.y + b.y, a.z + b.z⟩⟩

instance : Sub Vec3 := ⟨fun a b => ⟨a.x - b.x, a.y - b.y, a.z - b.z⟩⟩

instance : SMul ℚ Vec3 := ⟨fun c v => ⟨c * v.x, c * v.y, c * v.z⟩⟩

/-- An axis-aligned box given by its componentwise lower and upper corners,
modelling the rectangular collider volumes built from `THREE.BoxGeometry`. -/
structure Box where
  lo : Vec3
  hi : Vec3
deriving DecidableEq, Repr

/-- Membership of a point in an axis-aligned box. -/
def Box.Contains (bx : Box) (p : Vec3) : Prop :=
  bx.lo.x ≤ p.x ∧ p.x ≤ bx.hi.x ∧ bx.lo.y ≤ p.y ∧ p.y ≤ bx.hi.y ∧
    bx.lo.z ≤ p.z ∧ p.z ≤ bx.hi.z

instance (bx : Box) (p : Vec3) : Decidable (bx.Contains p) := by
  unfold Box.Contains; infer_instance

/-- The point at parameter `u` on the segment from `p` to `q`
(`u = 0` is `p`, `u = 1` is `q`). -/
def segPoint (p q : Vec3) (u : ℚ) : Vec3 :=
  p + u • (q - p)

/-- One slab of the standard ray/box test: whether the axis admits any
parameter at all (a degenerate axis only passes when the ray origin lies
inside the slab). -/
def axisOk (p d lo hi : ℚ) : Bool :=
  if d = 0 then decide (lo ≤ p ∧ p ≤ hi) else true

/-- Lower parameter bound contributed by one axis slab. -/
def axisLo (p d lo hi : ℚ) : ℚ :=
  if d = 0 then 0 else min ((lo - p) / d) ((hi - p) / d)

/-- Upper parameter bound contributed by one axis slab. -/
def axisHi (p d lo hi : ℚ) : ℚ :=
  if d = 0 then 1 else max ((lo - p) / d) ((hi - p) / d)

/-- Entry parameter of the segment from `p` to `q` into the box `bx`, when the
segment meets the box; `none` otherwise.  This models the query issued through
`new THREE.Raycaster(prevPosition, direction, 0, distance)` followed by
`intersectObjects` against a box collider: the library parametrises hits by
distance along the normalized direction, which over the range `[0, distance]`
is the same set of hit points as the fractional parameter `u` ranging over
`[0, 1]`, and the slab computation below is the standard box intersection the
library performs.  The returned entry parameter orders hits nearest-first. -/
def segParam (p q : Vec3) (bx : Box) : Option ℚ :=
  let d := q - p
  let ok := axisOk p.x d.x bx.lo.x bx.hi.x && axisOk p.y d.y bx.lo.y bx.hi.y &&
    axisOk p.z d.z bx.lo.z bx.hi.z
  let u0 := max 0 (max (axisLo p.x d.x bx.lo.x bx.hi.x)
    (max (axisLo p.y d.y bx.lo.y bx.hi.y) (axisLo p.z d.z bx.lo.z bx.hi.z)))
  let u1 := min 1 (min (axisHi p.x d.x bx.lo.x bx.hi.x)
    (min (axisHi p.y d.y bx.lo.y bx.hi.y) (axisHi p.z d.z bx.lo.z bx.hi.z)))
  if ok && decide (u0 ≤ u1) then some u0 else none

theorem axis_bounds_of_mem (p d lo hi u : ℚ) (hu0 : 0 ≤ u) (hu1 : u ≤ 1)
    (h1 : lo ≤ p + u * d) (h2 : p + u * d ≤ hi) :
    axisOk p d lo hi = true ∧ axisLo p d lo hi ≤ u ∧ u ≤ axisHi p d lo hi := by
  rcases eq_or_ne d 0 with hd | hd
  · subst hd
    simp only [mul_zero, add_zero] at h1 h2
    refine ⟨?_, ?_, ?_⟩
    · simp [axisOk, h1, h2]
    · simpa [axisLo] using hu0
    · simpa [axisHi] using hu1
  · rcases lt_or_gt_of_ne hd with hneg | hpos
    · refine ⟨by simp [axisOk, hd], ?_, ?_⟩
      · simp only [axisLo, if_neg hd]
        have : (hi - p) / d ≤ u := by
          rw [div_le_iff_of_neg hneg]
          linarith
        exact le_trans (min_le_right _ _) this
      · simp only [axisHi, if_neg hd]
        have : u ≤ (lo - p) / d := by
          rw [le_div_iff_of_neg hneg]
          linarith
        exact le_trans this (le_max_left _ _)
    · refine ⟨by simp [axisOk, hd], ?_, ?_⟩
      · simp only [axisLo, if_neg hd]
        have : (lo - p) / d ≤ u := by
          rw [div_le_iff₀ hpos]
          linarith
        exact le_trans (min_le_left _ _) this
      · simp only [axisHi, if_neg hd]
        have : u ≤ (hi - p) / d := by
          rw [le_div_iff₀ hpos]
          linarith
        exact le_trans this (le_max_right _ _)

/-- Completeness of the slab intersection: if some parameter `u ∈ [0, 1]`
places the segment point inside the box, the query reports a hit. -/
theorem segParam_isSome_of_contains (p q : Vec3) (bx : Box) (u : ℚ)
    (hu0 : 0 ≤ u) (hu1 : u ≤ 1) (hmem : bx.Contains (segPoint p q u)) :
    (segParam p q bx).isSome = true := by
  obtain ⟨hx1, hx2, hy1, hy2, hz1, hz2⟩ := hmem
  simp only [segPoint] at hx1 hx2 hy1 hy2 hz1 hz2
  change bx.lo.x ≤ p.x + u * (q.x - p.x) at hx1
  change p.x + u * (q.x - p.x) ≤ bx.hi.x at hx2
  change bx.lo.y ≤ p.y + u * (q.y - p.y) at hy1
  change p.y + u * (q.y - p.y) ≤ bx.hi.y at hy2
  change bx.lo.z ≤ p.z + u * (q.z - p.z) at hz1
  change p.z + u * (q.z - p.z) ≤ bx.hi.z at hz2
  obtain ⟨hokx, hlox, hhix⟩ :=
    axis_bounds_of_mem p.x (q.x - p.x) bx.lo.x bx.hi.x u hu0 hu1 hx1 hx2
  obtain ⟨hoky, hloy, hhiy⟩ :=
    axis_bounds_of_mem p.y (q.y - p.y) bx.lo.y bx.hi.y u hu0 hu1 hy1 hy2
  obtain ⟨hokz, hloz, hhiz⟩ :=
    axis_bounds_of_mem p.z (q.z - p.z) bx.lo.z bx.hi.z u hu0 hu1 hz1 hz2
  simp only [segParam]
  have hd : (q - p).x = q.x - p.x ∧ (q - p).y = q.y - p.y ∧ (q - p).z = q.z - p.z :=
    ⟨rfl, rfl, rfl⟩
  rw [hd.1, hd.2.1, hd.2.2, hokx, hoky, hokz]
  have hle : max 0 (max (axisLo p.x (q.x - p.x) bx.lo.x bx.hi.x)
      (max (axisLo p.y (q.y - p.y) bx.lo.y bx.hi.y)
        (axisLo p.z (q.z - p.z) bx.lo.z bx.hi.z))) ≤
      min 1 (min (axisHi p.x (q.x - p.x) bx.lo.x bx.hi.x)
      (min (axisHi p.y (q.y - p.y) bx.lo.y bx.hi.y)
        (axisHi p.z (q.z - p.z) bx.lo.z bx.hi.z))) := by
    have hlo : max 0 (max (axisLo p.x (q.x - p.x) bx.lo.x bx.hi.x)
        (max (axisLo p.y (q.y - p.y) bx.lo.y bx.hi.y)
          (axisLo p.z (q.z - p.z) bx.lo.z bx.hi.z))) ≤ u := by
      simp only [max_le_iff]
      exact ⟨hu0, hlox, hloy, hloz⟩
    have hhi : u ≤ min 1 (min (axisHi p.x (q.x - p.x) bx.lo.x bx.hi.x)
        (min (axisHi p.y (q.y - p.y) bx.lo.y bx.hi.y)
          (axisHi p.z (q.z - p.z) bx.lo.z bx.hi.z))) := by
      simp only [le_min_iff]
      exact ⟨hu1, hhix, hhiy, hhiz⟩
    exact le_trans hlo hhi
  simp [hle]

/-- An entry of the `targetColliders` map of the weapon: the box collider
created by `createTargetCollider` together with the data the collision routine
reads from it (`collider.visible`, `collider.userData.parentTarget` and the
`userData.targetId` / `userData.isTarget` flags of that parent target). -/
structure TargetColliderEntry where
  parentTargetId : String
  box : Box
  visible : Bool
  parentIsTarget : Bool
deriving DecidableEq, Repr

/-- A mesh of the scene graph as seen by the environment pass of
`checkBulletColliderCollision`: its collision box and the `userData` flags the
filter consults (`isWeaponMesh` abbreviates the result of the
`isWeaponMesh(child)` helper, which covers weapon parts and bullets). -/
structure SceneMesh where
  box : Box
  isWeaponMesh : Bool
  isBullet : Bool
  isBulletCollider : Bool
  isTargetCollider : Bool
  isTarget : Bool
deriving DecidableEq, Repr

/-- Outcome of one bullet collision check: no hit, a hit on a target collider
(carrying the identifier of the parent target and the hit point), or a hit on
environment geometry. -/
inductive CollisionResult where
  | noHit : CollisionResult
  | hitTarget (parentTargetId : String) (point : Vec3) : CollisionResult
  | hitEnvironment (point : Vec3) : CollisionResult
deriving DecidableEq, Repr

/-- Fold step selecting the hit of smaller ray parameter. -/
def nearerHit {α : Type} (acc : Option (ℚ × α)) (h : ℚ × α) : Option (ℚ × α) :=
  match acc with
  | none => some h
  | some a => if h.1 < a.1 then some h else some a

/-- First element of `intersectObjects` output: the raycaster reports hits
sorted nearest-first, and the routine reads `intersects[0]`, so this selects
the hit of least ray parameter. -/
def nearestHit {α : Type} (hits : List (ℚ × α)) : Option (ℚ × α) :=
  hits.foldl nearerHit none

/-- The target-collider intersections of the swept segment: the collider list
is first filtered by `collider.visible !== false`, then intersected
(`raycaster.intersectObjects(targetColliders, false)`). -/
def targetHits (prev cur : Vec3) (tcs : List TargetColliderEntry) :
    List (ℚ × TargetColliderEntry) :=
  (tcs.filter (fun tc => tc.visible)).filterMap
    (fun tc => (segParam prev cur tc.box).map (fun u => (u, tc)))

/-- The environment candidates: every scene mesh that is not a weapon part, a
bullet, a bullet collider, a target collider, or a target mesh. -/
def environmentCandidates (ms : List SceneMesh) : List SceneMesh :=
  ms.filter (fun m =>
    !m.isWeaponMesh && !m.isBullet && !m.isBulletCollider &&
      !m.isTargetCollider && !m.isTarget)

/-- The environment intersections of the swept segment. -/
def envHits (prev cur : Vec3) (ms : List SceneMesh) : List (ℚ × SceneMesh) :=
  (environmentCandidates ms).filterMap
    (fun m => (segParam prev cur m.box).map (fun u => (u, m)))

/-- `checkBulletColliderCollision` of the weapon module: returns immediately
when the bullet has no registered collider or when the swept segment has zero
length; otherwise casts a ray from the previous to the current bullet position
(range limited to that distance) first against the target colliders alone and,
only when no target collider is struck, against the environment candidates.
The Bool `hasCollider` is whether `bulletColliders.get(bullet.mesh)` is
present.  (At a target hit the routine also fires the per-target `onTargetHit`
callback when the parent target carries the `isTarget` flag, moves the bullet
mesh to the hit point and removes the bullet and its collider; those effects
act on state outside the returned classification.) -/
def checkBulletColliderCollision (hasCollider : Bool) (prev cur : Vec3)
    (tcs : List TargetColliderEntry) (ms : List SceneMesh) : CollisionResult :=
  if hasCollider = false then .noHit
  else if prev = cur then .noHit
  else
    match nearestHit (targetHits prev cur tcs) with
    | some h => .hitTarget h.2.parentTargetId (segPoint prev cur h.1)
    | none =>
      match nearestHit (envHits prev cur ms) with
      | some h => .hitEnvironment (segPoint prev cur h.1)
      | none => .noHit

/-- An in-flight bullet of `activeBullets`: the scene mesh is represented by
its creation stamp `meshId`, and the record carries the fields of the bullet
object built in `createBulletTrail` (position, velocity, remaining life). -/
structure Bullet where
  meshId : ℕ
  pos : Vec3
  velocity : Vec3
  life : ℚ
deriving DecidableEq, Repr

/-- The weapon state the embedded operations act on: the `activeBullets` list
(oldest first, as produced by `push`), the keys of the `bulletColliders` map,
the next fresh mesh stamp, and the shooting / ammo fields of the `Weapon`
class.  `bulletsFired` counts `createBulletTrail` invocations and
`reloadCalls` counts `reload()` invocations; both are instrumentation
counters used to state event-count properties. -/
structure WeaponState where
  activeBullets : List Bullet
  bulletColliders : List ℕ
  nextMeshId : ℕ
  isLoaded : Bool
  isShooting : Bool
  shootTimer : ℚ
  magAmmo : ℤ
  maxAmmo : ℤ
  totalAmmo : ℤ
  bulletsFired : ℕ
  reloadCalls : ℕ
deriving DecidableEq, Repr

/-- `this.fireRate = 0.1`, the minimum time between shots in seconds. -/
def fireRate : ℚ := 1 / 10

/-- `this.bulletSpeed = 100`. -/
def bulletSpeed : ℚ := 100

/-- `this.bulletLifetime = 3.0` seconds. -/
def bulletLifetime : ℚ := 3

/-- `this.maxBulletTrails = 50`, the cap on concurrently active bullets. -/
def maxBulletTrails : ℕ := 50

/-- The weapon state after the constructor has run (mag 30/30, total ammo
1200, timer clear) and `init()` has completed (`isLoaded` true). -/
def initialWeaponState : WeaponState :=
  { activeBullets := [], bulletColliders := [], nextMeshId := 0,
    isLoaded := true, isShooting := false, shootTimer := 0,
    magAmmo := 30, maxAmmo := 30, totalAmmo := 1200,
    bulletsFired := 0, reloadCalls := 0 }

/-- `createBulletTrail(startPos, direction)`: builds the bullet, adds its mesh
to the scene, registers a collider for it (`createBulletCollider`), pushes the
bullet object onto `activeBullets`, and, when the list has grown past
`maxBulletTrails`, shifts off the oldest bullet and removes that mesh from the
scene.  The shift removes neither the collider entry of the evicted bullet
nor its debug helper. -/
def createBulletTrail (startPos direction : Vec3) (s : WeaponState) : WeaponState :=
  let b : Bullet :=
    { meshId := s.nextMeshId, pos := startPos,
      velocity := bulletSpeed • direction, life := bulletLifetime }
  let pushed : WeaponState :=
    { s with
      bulletColliders := s.bulletColliders ++ [b.meshId],
      activeBullets := s.activeBullets ++ [b],
      nextMeshId := s.nextMeshId + 1,
      bulletsFired := s.bulletsFired + 1 }
  if maxBulletTrails < pushed.activeBullets.length then
    { pushed with activeBullets := pushed.activeBullets.drop 1 }
  else pushed

/-- `reload()`: refills the magazine from the reserve unless the magazine is
already full or the reserve is empty.  The invocation counter is bumped on
every call, guard included. -/
def reload (s : WeaponState) : WeaponState :=
  let s1 := { s with reloadCalls := s.reloadCalls + 1 }
  if s1.maxAmmo ≤ s1.magAmmo ∨ s1.totalAmmo ≤ 0 then s1
  else
    let bulletsToReload := min (s1.maxAmmo - s1.magAmmo) s1.totalAmmo
    { s1 with
      magAmmo := s1.magAmmo + bulletsToReload,
      totalAmmo := s1.totalAmmo - bulletsToReload }

/-- `startShooting()`: ignored until the weapon is loaded; otherwise raises
the trigger flag and clears `shootTimer` to allow an immediate first shot. -/
def startShooting (s : WeaponState) : WeaponState :=
  if s.isLoaded = false then s
  else { s with isShooting := true, shootTimer := 0 }

/-- `stopShooting()`. -/
def stopShooting (s : WeaponState) : WeaponState :=
  { s with isShooting := false }

/-- `shoot()`: with an empty magazine delegates to `reload()` and reports
failure; otherwise consumes one round and spawns a bullet trail from the
muzzle along the camera direction (both supplied here as arguments, they are
read from the scene camera in the source). -/
def shoot (muzzlePos shootDirection : Vec3) (s : WeaponState) : WeaponState × Bool :=
  if s.magAmmo ≤ 0 then (reload s, false)
  else
    let s1 := { s with magAmmo := s.magAmmo - 1 }
    (createBulletTrail muzzlePos shootDirection s1, true)

/-- The shot-attempt block of `update(deltaTime)`: when the trigger is held
and the gate timer has run out, attempt one shot, arming the timer with
`fireRate` only when the shot succeeded. -/
def attemptShot (muzzlePos shootDirection : Vec3) (s : WeaponState) :
    WeaponState :=
  if s.isShooting = true ∧ s.shootTimer ≤ 0 then
    if (shoot muzzlePos shootDirection s).2 then
      { (shoot muzzlePos shootDirection s).1 with shootTimer := fireRate }
    else (shoot muzzlePos shootDirection s).1
  else s

/-- The timer-decrement block of `update(deltaTime)`: a positive gate timer
is decreased by the frame delta. -/
def decrementTimer (dt : ℚ) (s : WeaponState) : WeaponState :=
  if 0 < s.shootTimer then { s with shootTimer := s.shootTimer - dt } else s

/-- The shooting portion of `update(deltaTime)` (the fire-rate gate): nothing
before the weapon is loaded; otherwise the shot attempt followed by the timer
decrement.  The omitted parts of `update` (target scanning, weapon rotation,
animation mixing, bullet advancement, collider sync) neither read nor write
the shooting fields. -/
def updateShooting (dt : ℚ) (muzzlePos shootDirection : Vec3)
    (s : WeaponState) : WeaponState :=
  if s.isLoaded = false then s
  else decrementTimer dt (attemptShot muzzlePos shootDirection s)

/-- `addAmmo(amount)`: adds to the reserve, clamped to a maximum of 300. -/
def addAmmo (amount : ℤ) (s : WeaponState) : WeaponState :=
  { s with totalAmmo := min (s.totalAmmo + amount) 300 }

/-- The per-bullet collision step of `updateBullets(deltaTime)`: the previous
position is remembered, the bullet advances by `velocity * deltaTime`, and
`checkBulletColliderCollision` is invoked over the full segment between the
two positions. -/
def updateBulletCollision (dt : ℚ) (b : Bullet) (hasCollider : Bool)
    (tcs : List TargetColliderEntry) (ms : List SceneMesh) : CollisionResult :=
  let prevPosition := b.pos
  let newPosition := b.pos + dt • b.velocity
  checkBulletColliderCollision hasCollider prevPosition newPosition tcs ms

/-- A local target as the scene handlers see it: the `userData` record of the
target mesh (identifier, health, maxHealth, points, the provisional
`locallyDestroyed` flag) together with the visual fields the authoritative
hit handler touches.  A single opacity, its remembered original, and the
`transparent` flag stand for the traversed child materials of the mesh. -/
structure Target where
  targetId : String
  position : Vec3
  health : ℤ
  maxHealth : ℤ
  points : ℤ
  locallyDestroyed : Bool
  opacity : ℚ
  originalOpacity : Option ℚ
  transparent : Bool
deriving DecidableEq, Repr

/-- The slice of the `TargetManager` the scene handlers use: its target list
and the `isModelLoaded` readiness flag. -/
structure TargetManagerState where
  targets : List Target
  isModelLoaded : Bool
deriving DecidableEq, Repr

/-- One target record of a `gameStateReceived` snapshot.  `scale` and
`maxHealth` are optional in the payload; the handlers apply JavaScript
or-defaulting to them. -/
structure SnapshotTarget where
  id : String
  position : Vec3
  scale : Option ℚ
  health : ℤ
  maxHealth : Option ℤ
  points : ℤ
  isAlive : Bool
deriving DecidableEq, Repr

/-- One player record of a `gameStateReceived` snapshot (only the identifier
matters to the embedded handlers). -/
structure GameStatePlayer where
  id : String
deriving DecidableEq, Repr

/-- A `gameStateReceived` snapshot: full listing of players and targets. -/
structure GameState where
  players : List GameStatePlayer
  targets : List SnapshotTarget
deriving DecidableEq, Repr

/-- The scene-level state the network callbacks mutate: the (possibly not yet
constructed) target manager, the local score, the local player identifier,
the keys of the `remotePlayers` map, and the `pendingGameState` slot. -/
structure SceneState where
  targetManager : Option TargetManagerState
  score : ℤ
  localPlayerId : String
  remotePlayers : List String
  pendingGameState : Option GameState
deriving DecidableEq, Repr

/-- Payload of a `targetHit` network event. -/
structure HitData where
  targetId : String
  playerId : String
  damage : ℤ
  health : ℤ
deriving DecidableEq, Repr

/-- Payload of a `targetDestroyed` network event. -/
structure DestroyData where
  targetId : String
  playerId : String
  points : ℤ
deriving DecidableEq, Repr

/-- Applies `f` to the first list element satisfying `p`, leaving the rest
unchanged; models `array.find(p)` followed by in-place mutation of the found
object. -/
def updateFirst {α : Type} (p : α → Bool) (f : α → α) : List α → List α
  | [] => []
  | a :: l => if p a then f a :: l else a :: updateFirst p f l

/-- The opacity-restore step of the `onTargetHit` handler of `scene.js`: when
the event health is positive, every child material with a truthy remembered
`originalOpacity` (present and nonzero, by JavaScript truthiness) gets that
opacity back, dropping `transparent` when the restored opacity reaches 1. -/
def restoreOpacityIfAlive (d : HitData) (t1 : Target) : Target :=
  if 0 < d.health then
    match t1.originalOpacity with
    | some v =>
      if v ≠ 0 then
        { t1 with
          opacity := v,
          transparent := if 1 ≤ v then false else t1.transparent }
      else t1
    | none => t1
  else t1

/-- The per-target mutation of the `onTargetHit` handler of `scene.js`: the
stored health is overwritten with the health carried by the event (never a
local decrement by the damage field), the provisional `locallyDestroyed`
marking is cleared, and then the opacity-restore step runs. -/
def applyAuthoritativeHit (d : HitData) (t : Target) : Target :=
  restoreOpacityIfAlive d { t with health := d.health, locallyDestroyed := false }

/-- `networkManager.onTargetHit` of `scene.js`: a no-op before the target
manager exists; otherwise finds the target carrying the event identifier and
applies the authoritative overwrite (an unknown identifier only logs a
warning). -/
def onTargetHit (s : SceneState) (d : HitData) : SceneState :=
  match s.targetManager with
  | none => s
  | some tm =>
    { s with
      targetManager := some { tm with
        targets := updateFirst (fun t => t.targetId == d.targetId)
          (applyAuthoritativeHit d) tm.targets } }

/-- Modelled from the spec: `TargetManager.destroyTargetById` (defined in
`targets.js`, which is not among the sources) removes the target with the
given identifier from the target list if present and reports whether a target
was destroyed; destroying an absent identifier is a silent no-op. -/
def destroyTargetById (tm : TargetManagerState) (targetId : String) :
    TargetManagerState × Bool :=
  if tm.targets.any (fun t => t.targetId == targetId) then
    ({ tm with targets := tm.targets.filter (fun t => t.targetId != targetId) }, true)
  else (tm, false)

/-- `networkManager.onTargetDestroyed` of `scene.js`: a no-op before the
target manager exists; otherwise destroys the target by identifier (without
re-broadcasting) and, when a target was actually destroyed and the destroying
player is the local player, adds the event points to the local score.  A miss
only logs a warning. -/
def onTargetDestroyed (s : SceneState) (d : DestroyData) : SceneState :=
  match s.targetManager with
  | none => s
  | some tm =>
    let r := destroyTargetById tm d.targetId
    if r.2 then
      if d.playerId == s.localPlayerId then
        { s with targetManager := some r.1, score := s.score + d.points }
      else { s with targetManager := some r.1 }
    else s

/-- Modelled from the spec: `TargetManager.clearAllTargets` (defined in
`targets.js`, which is not among the sources) unconditionally clears all
local targets. -/
def clearAllTargets (tm : TargetManagerState) : TargetManagerState :=
  { tm with targets := [] }

/-- JavaScript `a || b` defaulting on an optional integer field (an absent or
zero value falls back to the default). -/
def jsOrInt (o : Option ℤ) (dflt : ℤ) : ℤ :=
  match o with
  | none => dflt
  | some v => if v = 0 then dflt else v

/-- Modelled from the spec: `TargetManager.createTarget` (defined in
`targets.js`, which is not among the sources) creates a fresh, fully visible
target from the given snapshot record and appends it to the target list;
combined here with the `userData` overwrites `processGameState` performs
right after creation (`targetId`, `health`, `maxHealth || health`,
`points`). -/
def createTargetFromSnapshot (td : SnapshotTarget) : Target :=
  { targetId := td.id, position := td.position, health := td.health,
    maxHealth := jsOrInt td.maxHealth td.health, points := td.points,
    locallyDestroyed := false, opacity := 1, originalOpacity := none,
    transparent := false }

/-- `remotePlayers.set(id, remotePlayer)` viewed on the key set: a fresh key
is appended, an existing key keeps its place. -/
def addRemotePlayer (l : List String) (id : String) : List String :=
  if l.contains id then l else l ++ [id]

/-- The body of the `gameState.targets.forEach` loop of `processGameState`:
an alive snapshot target is recreated and appended, a dead one is skipped. -/
def spawnAliveTarget (acc : TargetManagerState) (td : SnapshotTarget) :
    TargetManagerState :=
  if td.isAlive then
    { acc with targets := acc.targets ++ [createTargetFromSnapshot td] }
  else acc

/-- `processGameState()` of `scene.js`.  Returns the new scene state together
with the retry delay (milliseconds) passed to `setTimeout(processGameState, d)`
when a dependency is missing: without a pending snapshot it returns at once;
with no target manager it reschedules itself after 100 ms; with the target
model not yet loaded it reschedules itself after 200 ms; once both
preconditions hold it creates the remote players of the snapshot (skipping
the local player), unconditionally clears all local targets, recreates every
snapshot target whose `isAlive` flag is set, and clears the pending slot.
The weapon-collider rescans and debug activations it additionally schedules
only touch the weapon module. -/
def processGameState (s : SceneState) : SceneState × Option ℕ :=
  match s.pendingGameState with
  | none => (s, none)
  | some gameState =>
    match s.targetManager with
    | none => (s, some 100)
    | some tm =>
      if tm.isModelLoaded = false then (s, some 200)
      else
        let remotePlayers1 :=
          ((gameState.players.filter (fun p => p.id != s.localPlayerId)).map
            (fun p => p.id)).foldl addRemotePlayer s.remotePlayers
        let tmCleared := clearAllTargets tm
        let tmRebuilt := gameState.targets.foldl spawnAliveTarget tmCleared
        ({ s with
            targetManager := some tmRebuilt,
            remotePlayers := remotePlayers1,
            pendingGameState := none }, none)

/-- The retry chain of `processGameState`: `retryRun s n` is the state and
scheduled delay after the initial invocation followed by `n` retries, in an
environment that changes nothing between callbacks (the dependency stays
unavailable). -/
def retryRun (s : SceneState) : ℕ → SceneState × Option ℕ
  | 0 => processGameState s
  | n + 1 => processGameState (retryRun s n).1

/-! Concrete instances used to evaluate the embedded operations. -/

/-- A muzzle position. -/
def muzzle : Vec3 := ⟨0, 16/10, 0⟩

/-- A unit aim direction (straight ahead along negative z). -/
def aimDir : Vec3 := ⟨0, 0, -1⟩

/-- Weapon with the trigger held. -/
def heldWeapon : WeaponState :=
  { initialWeaponState with isShooting := true }

/-- Weapon with the trigger held and an empty magazine. -/
def heldEmptyWeapon : WeaponState :=
  { initialWeaponState with isShooting := true, magAmmo := 0 }

/-- The weapon after 50 shots with no bullet yet removed: `activeBullets`
holds exactly `maxBulletTrails` bullets. -/
def fullWeapon : WeaponState :=
  Nat.iterate (createBulletTrail ⟨0, 0, 0⟩ ⟨0, 0, -1⟩) 50 initialWeaponState

/-- Start of a swept bullet segment along the x axis. -/
def sweepStart : Vec3 := ⟨0, 0, 0⟩

/-- End of the swept bullet segment, 10 units downrange. -/
def sweepEnd : Vec3 := ⟨10, 0, 0⟩

/-- A target collider centred 5 units downrange on that segment. -/
def farTargetCollider : TargetColliderEntry :=
  { parentTargetId := "cat-1",
    box := { lo := ⟨49/10, -1, -1⟩, hi := ⟨51/10, 1, 1⟩ },
    visible := true, parentIsTarget := true }

/-- An environment mesh centred only 3 units downrange — nearer along the ray
than the target collider. -/
def nearEnvironmentMesh : SceneMesh :=
  { box := { lo := ⟨29/10, -1, -1⟩, hi := ⟨31/10, 1, 1⟩ },
    isWeaponMesh := false, isBullet := false, isBulletCollider := false,
    isTargetCollider := false, isTarget := false }

/-- A bullet flying along the x axis at `bulletSpeed`: one 1/50 s tick moves
it 2 units. -/
def fastBullet : Bullet :=
  { meshId := 0, pos := ⟨0, 0, 0⟩, velocity := ⟨100, 0, 0⟩, life := 3 }

/-- A thin collider of half-extent 1/20 = 0.05 units, centred 1 unit
downrange: far smaller than the 2-unit per-tick displacement of
`fastBullet`, and disjoint from both tick endpoints. -/
def thinCollider : TargetColliderEntry :=
  { parentTargetId := "cat-2",
    box := { lo := ⟨19/20, -1/20, -1/20⟩, hi := ⟨21/20, 1/20, 1/20⟩ },
    visible := true, parentIsTarget := true }

/-- A locally destroyed target (health 0, faded out) remembering original
opacity 1. -/
def rollbackTarget : Target :=
  { targetId := "t1", position := ⟨0, 1, -10⟩, health := 0, maxHealth := 10,
    points := 50, locallyDestroyed := true, opacity := 1/5,
    originalOpacity := some 1, transparent := true }

/-- A scene whose target manager holds exactly `rollbackTarget`. -/
def rollbackScene : SceneState :=
  { targetManager := some { targets := [rollbackTarget], isModelLoaded := true },
    score := 0, localPlayerId := "me", remotePlayers := [],
    pendingGameState := none }

/-- An authoritative `targetHit` that disagrees with the local optimistic
destruction: the server says health 3. -/
def rollbackHit : HitData :=
  { targetId := "t1", playerId := "other", damage := 10, health := 3 }

/-- A `targetDestroyed` event attributed to the local player. -/
def destroyEvent : DestroyData :=
  { targetId := "t1", playerId := "me", points := 50 }

/-- A snapshot target that is alive. -/
def snapAlive : SnapshotTarget :=
  { id := "s1", position := ⟨1, 2, 3⟩, scale := some 5, health := 20,
    maxHealth := some 20, points := 10, isAlive := true }

/-- A snapshot target that is already dead. -/
def snapDead : SnapshotTarget :=
  { id := "s2", position := ⟨4, 5, 6⟩, scale := none, health := 0,
    maxHealth := none, points := 10, isAlive := false }

/-- A join snapshot: the local player, one remote player, one alive and one
dead target. -/
def joinSnapshot : GameState :=
  { players := [{ id := "me" }, { id := "p2" }],
    targets := [snapAlive, snapDead] }

/-- A ready scene (manager constructed, model loaded) holding stale local
state and the pending join snapshot. -/
def readyScene : SceneState :=
  { targetManager := some { targets := [rollbackTarget], isModelLoaded := true },
    score := 7, localPlayerId := "me", remotePlayers := [],
    pendingGameState := some joinSnapshot }

/-- An empty snapshot. -/
def emptySnapshot : GameState := { players := [], targets := [] }

/-- A scene that received a snapshot before the target manager was
constructed, in an environment where the manager never appears. -/
def unreadyScene : SceneState :=
  { targetManager := none, score := 0, localPlayerId := "me",
    remotePlayers := [], pendingGameState := some emptySnapshot }

/-! Theorems. -/

/-- Claim C10: for every non-negative amount, `addAmmo` sets the total ammo
reserve to `min (totalAmmo + amount) 300` and leaves the magazine count
unchanged; the constructor initialises the reserve to 1200, and any call to
`addAmmo` while the reserve exceeds 300 strictly decreases the reserve. -/
theorem addAmmo_clamps_reserve (s : WeaponState) (amount : ℤ)
    (hamt : 0 ≤ amount) :
    (addAmmo amount s).totalAmmo = min (s.totalAmmo + amount) 300 ∧
    (addAmmo amount s).magAmmo = s.magAmmo ∧
    initialWeaponState.totalAmmo = 1200 ∧
    (300 < s.totalAmmo → (addAmmo amount s).totalAmmo < s.totalAmmo) := by
  refine ⟨rfl, rfl, rfl, fun h => ?_⟩
  calc (addAmmo amount s).totalAmmo = min (s.totalAmmo + amount) 300 := rfl
    _ ≤ 300 := min_le_right _ _
    _ < s.totalAmmo := h

/-- Witness for C10: adding 60 rounds to the freshly constructed weapon
(reserve 1200) clamps the reserve down to 300 and keeps the magazine at 30. -/
theorem addAmmo_clamps_reserve_witness :
    (addAmmo 60 initialWeaponState).totalAmmo =
        min (initialWeaponState.totalAmmo + 60) 300 ∧
    (addAmmo 60 initialWeaponState).magAmmo = initialWeaponState.magAmmo ∧
    initialWeaponState.totalAmmo = 1200 ∧
    (300 < initialWeaponState.totalAmmo →
      (addAmmo 60 initialWeaponState).totalAmmo < initialWeaponState.totalAmmo) :=
  addAmmo_clamps_reserve initialWeaponState 60 (by decide)

/-- Claim C7: a shot fired while `activeBullets` already holds
`maxBulletTrails` bullets evicts exactly the oldest bullet (the list head —
`push` appends, so the list is ordered oldest first): the new list is the old
list minus its head plus the fresh bullet at the back, and the length stays
at the cap, so no newer bullet is ever evicted. -/
theorem createBulletTrail_evicts_oldest (p d : Vec3) (s : WeaponState)
    (hcap : s.activeBullets.length = maxBulletTrails) :
    ∃ b : Bullet,
      (createBulletTrail p d s).activeBullets = s.activeBullets.drop 1 ++ [b] ∧
      (createBulletTrail p d s).activeBullets.length = maxBulletTrails := by
  refine ⟨{ meshId := s.nextMeshId, pos := p,
            velocity := bulletSpeed • d, life := bulletLifetime }, ?_, ?_⟩
  · cases hb : s.activeBullets with
    | nil => rw [hb] at hcap; simp [maxBulletTrails] at hcap
    | cons a l =>
      simp only [createBulletTrail, hb]
      rw [if_pos]
      · simp
      · rw [hb] at hcap
        simp [List.length_append, hcap.symm]
  · cases hb : s.activeBullets with
    | nil => rw [hb] at hcap; simp [maxBulletTrails] at hcap
    | cons a l =>
      have hl : l.length + 1 = maxBulletTrails := by
        rw [hb] at hcap; simpa using hcap
      simp only [createBulletTrail, hb]
      rw [if_pos]
      · simpa using hl
      · simp only [List.length_append, List.length_cons]
        omega

set_option maxRecDepth 10000 in
/-- Witness for C7: with the weapon at the 50-bullet cap, the 51st shot
leaves the cap intact and the surviving bullets are the old tail plus the
fresh bullet. -/
theorem createBulletTrail_evicts_oldest_witness :
    ∃ b : Bullet,
      (createBulletTrail muzzle aimDir fullWeapon).activeBullets =
          fullWeapon.activeBullets.drop 1 ++ [b] ∧
      (createBulletTrail muzzle aimDir fullWeapon).activeBullets.length =
        maxBulletTrails :=
  createBulletTrail_evicts_oldest muzzle aimDir fullWeapon (by decide)

set_option maxRecDepth 10000 in
/-- Claim C8 (evaluation at the failing input): after 50 shots `fullWeapon`
holds 50 bullets and 50 collider entries; the 51st shot evicts bullet 0 from
`activeBullets`, yet its collider entry survives the eviction — the shift in
`createBulletTrail` removes only the mesh and never calls
`removeBulletCollider`, leaving 51 collider entries for 50 live bullets (the
hit and lifetime-expiry removal paths do call it). -/
theorem createBulletTrail_eviction_leaks_collider :
    fullWeapon.activeBullets.length = 50 ∧
    fullWeapon.bulletColliders.length = 50 ∧
    (createBulletTrail muzzle aimDir fullWeapon).activeBullets.length = 50 ∧
    ((createBulletTrail muzzle aimDir fullWeapon).activeBullets.all
      (fun b => b.meshId ≠ 0)) = true ∧
    (createBulletTrail muzzle aimDir fullWeapon).bulletColliders.contains 0 = true ∧
    (createBulletTrail muzzle aimDir fullWeapon).bulletColliders.length = 51 := by
  decide

theorem retryRun_no_manager (s : SceneState) (gs : GameState)
    (h1 : s.pendingGameState = some gs) (h2 : s.targetManager = none) :
    ∀ n, retryRun s n = (s, some 100) := by
  have hstep : processGameState s = (s, some 100) := by
    simp [processGameState, h1, h2]
  intro n
  induction n with
  | zero => simpa [retryRun] using hstep
  | succ n ih => simp [retryRun, ih, hstep]

theorem retryRun_model_not_loaded (s : SceneState) (gs : GameState)
    (tm : TargetManagerState) (h1 : s.pendingGameState = some gs)
    (h2 : s.targetManager = some tm) (h3 : tm.isModelLoaded = false) :
    ∀ n, retryRun s n = (s, some 200) := by
  have hstep : processGameState s = (s, some 200) := by
    simp [processGameState, h1, h2, h3]
  intro n
  induction n with
  | zero => simpa [retryRun] using hstep
  | succ n ih => simp [retryRun, ih, hstep]

/-- Counterexample to claim C9 as stated: with a snapshot pending and the
target manager never becoming available, there is no retry count after which
the polling stops rescheduling itself — every one of the infinitely many
retries schedules another `setTimeout`. -/
theorem processGameState_retry_not_bounded :
    ¬ ∃ N : ℕ, ∀ n : ℕ, N ≤ n → (retryRun unreadyScene n).2 = none := by
  rintro ⟨N, h⟩
  have hN := h N le_rfl
  rw [retryRun_no_manager unreadyScene emptySnapshot rfl rfl N] at hN
  exact Option.noConfusion hN

/-- Claim C9 (amended): the retry-with-delay polling of `processGameState` is
unbounded — while the target manager is missing, every invocation leaves the
state unchanged and reschedules itself after the fixed 100 ms delay, for
every retry count `n`; likewise with the manager present but the target model
not loaded, it reschedules itself after 200 ms indefinitely.  No maximum
retry count exists in the code. -/
theorem processGameState_retry_reschedules_forever (s : SceneState)
    (gs : GameState) (h1 : s.pendingGameState = some gs) :
    (s.targetManager = none → ∀ n, retryRun s n = (s, some 100)) ∧
    (∀ tm, s.targetManager = some tm → tm.isModelLoaded = false →
      ∀ n, retryRun s n = (s, some 200)) :=
  ⟨fun h2 => retryRun_no_manager s gs h1 h2,
   fun tm h2 h3 => retryRun_model_not_loaded s gs tm h1 h2 h3⟩

/-- Witness for the amended C9: after five retries on the never-ready scene
the state is untouched and a sixth retry is scheduled at 100 ms. -/
theorem processGameState_retry_reschedules_forever_witness :
    retryRun unreadyScene 5 = (unreadyScene, some 100) :=
  (processGameState_retry_reschedules_forever unreadyScene emptySnapshot rfl).1 rfl 5

theorem any_eq_false_after_filter_ne (l : List Target) (i : String) :
    ((l.filter (fun t => t.targetId != i)).any (fun t => t.targetId == i)) = false := by
  induction l with
  | nil => rfl
  | cons a l ih =>
    simp only [List.filter_cons]
    by_cases h : (a.targetId == i) = true
    · have hf : (a.targetId != i) = false := by simp [bne, h]
      simp [hf, ih]
    · have hb : (a.targetId == i) = false := by simpa using h
      have ht : (a.targetId != i) = true := by simp [bne, hb]
      simp [ht, List.any_cons, hb, ih]

/-- Claim C3: applying the same `targetDestroyed` event twice leaves the
state exactly as after one application (the second pass finds no target with
that identifier and is a silent no-op, with no score change); destroying an
identifier that is absent from the target list changes nothing; and the
event points are added to the local score only when the destroying player is
the local player. -/
theorem onTargetDestroyed_idempotent (s : SceneState) (d : DestroyData) :
    onTargetDestroyed (onTargetDestroyed s d) d = onTargetDestroyed s d ∧
    ((∀ tm, s.targetManager = some tm →
        tm.targets.any (fun t => t.targetId == d.targetId) = false) →
      onTargetDestroyed s d = s) ∧
    (d.playerId ≠ s.localPlayerId → (onTargetDestroyed s d).score = s.score) ∧
    ((onTargetDestroyed s d).score = s.score ∨
      ((onTargetDestroyed s d).score = s.score + d.points ∧
        d.playerId = s.localPlayerId)) := by
  cases htm : s.targetManager with
  | none =>
    refine ⟨?_, fun _ => ?_, fun _ => ?_, Or.inl ?_⟩ <;>
      simp [onTargetDestroyed, htm]
  | some tm =>
    by_cases hany : tm.targets.any (fun t => t.targetId == d.targetId) = true
    · have hdestroy : destroyTargetById tm d.targetId =
          ({ tm with targets := tm.targets.filter (fun t => t.targetId != d.targetId) },
            true) := by
        simp [destroyTargetById, hany]
      have hsecond : ∀ s1 : SceneState,
          s1.targetManager =
            some { tm with
              targets := tm.targets.filter (fun t => t.targetId != d.targetId) } →
          onTargetDestroyed s1 d = s1 := by
        intro s1 h1
        have : destroyTargetById
            { tm with targets := tm.targets.filter (fun t => t.targetId != d.targetId) }
            d.targetId =
            ({ tm with targets := tm.targets.filter (fun t => t.targetId != d.targetId) },
              false) := by
          simp [destroyTargetById, any_eq_false_after_filter_ne]
        simp [onTargetDestroyed, h1, this]
      by_cases hpid : d.playerId == s.localPlayerId
      · have hfirst : onTargetDestroyed s d =
            { s with
              targetManager :=
                some { tm with
                  targets := tm.targets.filter (fun t => t.targetId != d.targetId) },
              score := s.score + d.points } := by
          simp [onTargetDestroyed, htm, hdestroy, hpid]
        refine ⟨?_, fun habs => ?_, fun hne => ?_, Or.inr ⟨?_, ?_⟩⟩
        · rw [hfirst]
          exact hsecond _ rfl
        · exact absurd (habs tm rfl) (by simp [hany])
        · exact absurd (eq_of_beq hpid) hne
        · rw [hfirst]
        · exact eq_of_beq hpid
      · have hfirst : onTargetDestroyed s d =
            { s with
              targetManager :=
                some { tm with
                  targets := tm.targets.filter (fun t => t.targetId != d.targetId) } } := by
          simp [onTargetDestroyed, htm, hdestroy, hpid]
        refine ⟨?_, fun habs => ?_, fun _ => ?_, Or.inl ?_⟩
        · rw [hfirst]
          exact hsecond _ rfl
        · exact absurd (habs tm rfl) (by simp [hany])
        · rw [hfirst]
        · rw [hfirst]
    · have hdestroy : destroyTargetById tm d.targetId = (tm, false) := by
        simp only [destroyTargetById]
        rw [if_neg]
        simpa using hany
      have hfirst : onTargetDestroyed s d = s := by
        simp [onTargetDestroyed, htm, hdestroy]
      refine ⟨?_, fun _ => hfirst, fun _ => ?_, Or.inl ?_⟩ <;> rw [hfirst]
      exact hfirst

/-- Witness for C3: destroying `rollbackTarget` twice with a local-player
event equals destroying it once, and the 50 points are awarded (the event
player is the local player). -/
theorem onTargetDestroyed_idempotent_witness :
    onTargetDestroyed (onTargetDestroyed rollbackScene destroyEvent) destroyEvent =
        onTargetDestroyed rollbackScene destroyEvent ∧
    ((∀ tm, rollbackScene.targetManager = some tm →
        tm.targets.any (fun t => t.targetId == destroyEvent.targetId) = false) →
      onTargetDestroyed rollbackScene destroyEvent = rollbackScene) ∧
    (destroyEvent.playerId ≠ rollbackScene.localPlayerId →
      (onTargetDestroyed rollbackScene destroyEvent).score = rollbackScene.score) ∧
    ((onTargetDestroyed rollbackScene destroyEvent).score = rollbackScene.score ∨
      ((onTargetDestroyed rollbackScene destroyEvent).score =
          rollbackScene.score + destroyEvent.points ∧
        destroyEvent.playerId = rollbackScene.localPlayerId)) :=
  onTargetDestroyed_idempotent rollbackScene destroyEvent

theorem restoreOpacityIfAlive_fields (d : HitData) (t1 : Target) :
    (restoreOpacityIfAlive d t1).targetId = t1.targetId ∧
    (restoreOpacityIfAlive d t1).health = t1.health ∧
    (restoreOpacityIfAlive d t1).locallyDestroyed = t1.locallyDestroyed := by
  unfold restoreOpacityIfAlive
  split
  · split
    · split <;> exact ⟨rfl, rfl, rfl⟩
    · exact ⟨rfl, rfl, rfl⟩
  · exact ⟨rfl, rfl, rfl⟩

theorem applyAuthoritativeHit_targetId (d : HitData) (t : Target) :
    (applyAuthoritativeHit d t).targetId = t.targetId :=
  (restoreOpacityIfAlive_fields d _).1

theorem applyAuthoritativeHit_health (d : HitData) (t : Target) :
    (applyAuthoritativeHit d t).health = d.health :=
  (restoreOpacityIfAlive_fields d _).2.1

theorem applyAuthoritativeHit_locallyDestroyed (d : HitData) (t : Target) :
    (applyAuthoritativeHit d t).locallyDestroyed = false :=
  (restoreOpacityIfAlive_fields d _).2.2

theorem restoreOpacityIfAlive_opacity (d : HitData) (t1 : Target) (v : ℚ)
    (hpos : 0 < d.health) (hv : t1.originalOpacity = some v) (hv0 : v ≠ 0) :
    (restoreOpacityIfAlive d t1).opacity = v := by
  unfold restoreOpacityIfAlive
  rw [if_pos hpos, hv]
  simp [hv0]

theorem applyAuthoritativeHit_opacity (d : HitData) (t : Target) (v : ℚ)
    (hpos : 0 < d.health) (hv : t.originalOpacity = some v) (hv0 : v ≠ 0) :
    (applyAuthoritativeHit d t).opacity = v :=
  restoreOpacityIfAlive_opacity d _ v hpos hv hv0

theorem find?_updateFirst {α : Type} (p : α → Bool) (f : α → α)
    (hpf : ∀ a, p a = true → p (f a) = true) :
    ∀ (l : List α) (t : α), l.find? p = some t →
      (updateFirst p f l).find? p = some (f t) := by
  intro l
  induction l with
  | nil => intro t h; simp at h
  | cons a l ih =>
    intro t h
    by_cases hpa : p a = true
    · rw [List.find?_cons_of_pos _ hpa] at h
      injection h with h
      subst h
      simp only [updateFirst, if_pos hpa]
      rw [List.find?_cons_of_pos _ (hpf a hpa)]
    · have hf : p a = false := by simpa using hpa
      rw [List.find?_cons_of_neg _ (by simp [hf])] at h
      simp only [updateFirst, hf, Bool.false_eq_true, if_neg, ite_false]
      rw [List.find?_cons_of_neg _ (by simp [hf])]
      exact ih t h

/-- Claim C2: the authoritative `targetHit` handler overwrites the stored
health of the identified target with exactly the event health (never the
current local health minus the event damage), clears the provisional
`locallyDestroyed` flag, and — when the event health is positive — restores
the remembered original opacity, returning a locally destroyed target to the
alive state. -/
theorem onTargetHit_authoritative_overwrite (s : SceneState) (d : HitData)
    (tm : TargetManagerState) (t : Target)
    (htm : s.targetManager = some tm)
    (hfind : tm.targets.find? (fun x => x.targetId == d.targetId) = some t) :
    ∃ tm' t', (onTargetHit s d).targetManager = some tm' ∧
      tm'.targets.find? (fun x => x.targetId == d.targetId) = some t' ∧
      t'.health = d.health ∧
      t'.locallyDestroyed = false ∧
      (0 < d.health → ∀ v : ℚ, t.originalOpacity = some v → v ≠ 0 →
        t'.opacity = v) := by
  refine ⟨{ tm with
      targets := updateFirst (fun x => x.targetId == d.targetId)
        (applyAuthoritativeHit d) tm.targets },
    applyAuthoritativeHit d t, ?_, ?_,
    applyAuthoritativeHit_health d t,
    applyAuthoritativeHit_locallyDestroyed d t, ?_⟩
  · simp [onTargetHit, htm]
  · exact find?_updateFirst _ _
      (fun a ha => by rw [applyAuthoritativeHit_targetId]; exact ha)
      tm.targets t hfind
  · intro hpos v hv hv0
    exact applyAuthoritativeHit_opacity d t v hpos hv hv0

/-- Witness for C2: the locally destroyed `rollbackTarget` (health 0, faded
to opacity 1/5) is rolled back to health 3 with its original opacity 1
restored by the authoritative `rollbackHit`. -/
theorem onTargetHit_authoritative_overwrite_witness :
    ∃ tm' t',
      (onTargetHit rollbackScene rollbackHit).targetManager = some tm' ∧
      tm'.targets.find?
        (fun x => x.targetId == rollbackHit.targetId) = some t' ∧
      t'.health = rollbackHit.health ∧
      t'.locallyDestroyed = false ∧
      (0 < rollbackHit.health → ∀ v : ℚ,
        rollbackTarget.originalOpacity = some v → v ≠ 0 → t'.opacity = v) :=
  onTargetHit_authoritative_overwrite rollbackScene rollbackHit
    { targets := [rollbackTarget], isModelLoaded := true } rollbackTarget
    rfl rfl

theorem foldl_spawnAliveTarget (tds : List SnapshotTarget) :
    ∀ acc : TargetManagerState,
      tds.foldl spawnAliveTarget acc =
        { acc with targets := acc.targets ++
            (tds.filter (fun td => td.isAlive)).map createTargetFromSnapshot } := by
  induction tds with
  | nil => intro acc; simp
  | cons td tds ih =>
    intro acc
    by_cases h : td.isAlive = true
    · simp [List.foldl_cons, spawnAliveTarget, h, ih, List.filter_cons]
    · have hf : td.isAlive = false := by simpa using h
      simp [List.foldl_cons, spawnAliveTarget, hf, ih, List.filter_cons]

/-- Claim C1: a received game-state snapshot is processed only once both the
target manager exists and the target model is loaded — otherwise the state is
untouched and a retry is scheduled on the fixed delay (100 ms respectively
200 ms); once processed, the handler first clears all local targets and then
recreates exactly the snapshot targets whose `isAlive` flag is true, so the
final local target list equals the alive-target set of the snapshot
regardless of any prior local targets. -/
theorem processGameState_resync (s : SceneState) (gs : GameState)
    (hpend : s.pendingGameState = some gs) :
    (s.targetManager = none → processGameState s = (s, some 100)) ∧
    (∀ tm, s.targetManager = some tm → tm.isModelLoaded = false →
      processGameState s = (s, some 200)) ∧
    (∀ tm, s.targetManager = some tm → tm.isModelLoaded = true →
      ∃ tm', (processGameState s).1.targetManager = some tm' ∧
        tm'.targets =
          (gs.targets.filter (fun td => td.isAlive)).map createTargetFromSnapshot ∧
        tm'.targets.map (fun t => t.targetId) =
          (gs.targets.filter (fun td => td.isAlive)).map (fun td => td.id) ∧
        (processGameState s).1.pendingGameState = none ∧
        (processGameState s).2 = none) := by
  refine ⟨fun hnone => ?_, fun tm htm hnl => ?_, fun tm htm hl => ?_⟩
  · simp [processGameState, hpend, hnone]
  · simp [processGameState, hpend, htm, hnl]
  · refine ⟨gs.targets.foldl spawnAliveTarget (clearAllTargets tm), ?_, ?_, ?_, ?_, ?_⟩
    · simp [processGameState, hpend, htm, hl]
    · rw [foldl_spawnAliveTarget]
      simp [clearAllTargets]
    · rw [foldl_spawnAliveTarget]
      simp only [clearAllTargets, List.nil_append, List.map_map]
      rfl
    · simp [processGameState, hpend, htm, hl]
    · simp [processGameState, hpend, htm, hl]

/-- Witness for C1: processing `readyScene` (stale local target, pending
snapshot with one alive and one dead target) yields exactly the alive
snapshot target. -/
theorem processGameState_resync_witness :
    ∃ tm', (processGameState readyScene).1.targetManager = some tm' ∧
      tm'.targets = (joinSnapshot.targets.filter
        (fun td => td.isAlive)).map createTargetFromSnapshot ∧
      tm'.targets.map (fun t => t.targetId) =
        (joinSnapshot.targets.filter (fun td => td.isAlive)).map (fun td => td.id) ∧
      (processGameState readyScene).1.pendingGameState = none ∧
      (processGameState readyScene).2 = none :=
  (processGameState_resync readyScene joinSnapshot rfl).2.2
    { targets := [rollbackTarget], isModelLoaded := true } rfl rfl

theorem foldl_nearerHit_isSome {α : Type} (l : List (ℚ × α)) :
    ∀ a : ℚ × α, ∃ r, l.foldl nearerHit (some a) = some r := by
  induction l with
  | nil => intro a; exact ⟨a, rfl⟩
  | cons h t ih =>
    intro a
    simp only [List.foldl_cons]
    have hsome : ∃ b : ℚ × α, nearerHit (some a) h = some b := by
      unfold nearerHit
      by_cases hc : h.1 < a.1
      · exact ⟨h, by simp [hc]⟩
      · exact ⟨a, by simp [hc]⟩
    obtain ⟨b, hb⟩ := hsome
    rw [hb]
    exact ih b

theorem nearestHit_isSome_of_ne_nil {α : Type} (l : List (ℚ × α)) (h : l ≠ []) :
    ∃ r, nearestHit l = some r := by
  cases l with
  | nil => exact absurd rfl h
  | cons a t =>
    unfold nearestHit
    simp only [List.foldl_cons]
    exact foldl_nearerHit_isSome t a

/-- Claim C4: whenever the swept segment of a bullet intersects at least one
registered (visible) target collider, `checkBulletColliderCollision` resolves
the hit against a target collider, and the environment geometry is never
consulted: the outcome is a `hitTarget` and is identical for every
environment mesh list — even one whose geometry lies nearer along the ray
than the target collider. -/
theorem checkBulletColliderCollision_target_precedence
    (prev cur : Vec3) (tcs : List TargetColliderEntry)
    (ms msAlt : List SceneMesh)
    (hne : prev ≠ cur) (hhits : targetHits prev cur tcs ≠ []) :
    (∃ tid pt, checkBulletColliderCollision true prev cur tcs ms =
        CollisionResult.hitTarget tid pt) ∧
      checkBulletColliderCollision true prev cur tcs ms =
        checkBulletColliderCollision true prev cur tcs msAlt := by
  obtain ⟨r, hr⟩ := nearestHit_isSome_of_ne_nil _ hhits
  refine ⟨⟨r.2.parentTargetId, segPoint prev cur r.1, ?_⟩, ?_⟩
  · simp [checkBulletColliderCollision, hne, hr]
  · simp [checkBulletColliderCollision, hne, hr]

unseal Rat.mul Rat.inv Rat.add Rat.sub in
/-- Witness for C4: on the segment from `sweepStart` to `sweepEnd`, the
target collider sits at entry parameter 49/100 (distance 4.9) while the
environment mesh sits at entry parameter 29/100 (distance 2.9) — nearer —
yet the outcome is a target hit and is unchanged when the environment mesh
is removed entirely. -/
theorem checkBulletColliderCollision_target_precedence_witness :
    ((∃ tid pt,
        checkBulletColliderCollision true sweepStart sweepEnd
            [farTargetCollider] [nearEnvironmentMesh] =
          CollisionResult.hitTarget tid pt) ∧
      checkBulletColliderCollision true sweepStart sweepEnd
          [farTargetCollider] [nearEnvironmentMesh] =
        checkBulletColliderCollision true sweepStart sweepEnd
          [farTargetCollider] []) ∧
    segParam sweepStart sweepEnd farTargetCollider.box = some (49/100) ∧
    segParam sweepStart sweepEnd nearEnvironmentMesh.box = some (29/100) :=
  ⟨checkBulletColliderCollision_target_precedence sweepStart sweepEnd
      [farTargetCollider] [nearEnvironmentMesh] [] (by decide) (by decide),
    by decide, by decide⟩

/-- Claim C5: the per-tick bullet collision test of `updateBullets` is a ray
cast over the full segment from the previous position to the new position
(the ray range is the segment length), never a single-point test: every
visible target collider whose box meets the swept segment at any parameter
`u ∈ [0, 1]` is detected as a hit — in particular a thin collider whose
extent is smaller than the per-tick displacement. -/
theorem updateBullets_swept_segment (dt : ℚ) (b : Bullet)
    (tc : TargetColliderEntry) (ms : List SceneMesh) (u : ℚ)
    (hvis : tc.visible = true) (hu0 : 0 ≤ u) (hu1 : u ≤ 1)
    (hmem : tc.box.Contains (segPoint b.pos (b.pos + dt • b.velocity) u))
    (hne : b.pos ≠ b.pos + dt • b.velocity) :
    ∃ pt, updateBulletCollision dt b true [tc] ms =
      CollisionResult.hitTarget tc.parentTargetId pt := by
  have hsome := segParam_isSome_of_contains b.pos (b.pos + dt • b.velocity)
    tc.box u hu0 hu1 hmem
  rw [Option.isSome_iff_exists] at hsome
  obtain ⟨u0, hu0'⟩ := hsome
  have hth : targetHits b.pos (b.pos + dt • b.velocity) [tc] = [(u0, tc)] := by
    simp [targetHits, hvis, hu0']
  refine ⟨segPoint b.pos (b.pos + dt • b.velocity) u0, ?_⟩
  simp [updateBulletCollision, checkBulletColliderCollision, hne, hth,
    nearestHit, nearerHit]

unseal Rat.mul Rat.inv Rat.add Rat.sub in
/-- Witness for C5: `fastBullet` moves 2 units in one 1/50 s tick; the thin
collider (half-extent 0.05, crossed at segment midpoint `u = 1/2`) contains
neither tick endpoint — a point sample at either end misses — yet the swept
test reports the hit. -/
theorem updateBullets_swept_segment_witness :
    (∃ pt, updateBulletCollision (1/50) fastBullet true [thinCollider] [] =
      CollisionResult.hitTarget thinCollider.parentTargetId pt) ∧
    ¬ thinCollider.box.Contains fastBullet.pos ∧
    ¬ thinCollider.box.Contains
        (fastBullet.pos + (1/50 : ℚ) • fastBullet.velocity) :=
  ⟨updateBullets_swept_segment (1/50) fastBullet thinCollider [] (1/2)
      rfl (by decide) (by decide) (by decide) (by decide),
    by decide, by decide⟩

theorem createBulletTrail_fields (p d : Vec3) (s : WeaponState) :
    (createBulletTrail p d s).isLoaded = s.isLoaded ∧
    (createBulletTrail p d s).isShooting = s.isShooting ∧
    (createBulletTrail p d s).shootTimer = s.shootTimer ∧
    (createBulletTrail p d s).magAmmo = s.magAmmo ∧
    (createBulletTrail p d s).totalAmmo = s.totalAmmo ∧
    (createBulletTrail p d s).maxAmmo = s.maxAmmo ∧
    (createBulletTrail p d s).bulletsFired = s.bulletsFired + 1 ∧
    (createBulletTrail p d s).reloadCalls = s.reloadCalls := by
  simp only [createBulletTrail]
  split <;> exact ⟨rfl, rfl, rfl, rfl, rfl, rfl, rfl, rfl⟩

theorem reload_fields (s : WeaponState) :
    (reload s).isLoaded = s.isLoaded ∧
    (reload s).isShooting = s.isShooting ∧
    (reload s).shootTimer = s.shootTimer ∧
    (reload s).bulletsFired = s.bulletsFired ∧
    (reload s).reloadCalls = s.reloadCalls + 1 := by
  simp only [reload]
  split <;> exact ⟨rfl, rfl, rfl, rfl, rfl⟩

theorem reload_magAmmo_pos (s : WeaponState) (hm : s.magAmmo = 0)
    (ht : 0 < s.totalAmmo) (hx : 0 < s.maxAmmo) : 0 < (reload s).magAmmo := by
  simp only [reload]
  rw [if_neg]
  · show 0 < s.magAmmo + min (s.maxAmmo - s.magAmmo) s.totalAmmo
    rw [hm]
    simpa using lt_min hx ht
  · push_neg
    refine ⟨?_, ht⟩
    show s.magAmmo < s.maxAmmo
    rw [hm]
    exact hx

theorem shoot_fire (p d : Vec3) (s : WeaponState) (hmag : 0 < s.magAmmo) :
    shoot p d s =
      (createBulletTrail p d { s with magAmmo := s.magAmmo - 1 }, true) := by
  unfold shoot
  rw [if_neg (not_le.mpr hmag)]

theorem attemptShot_fire (p d : Vec3) (s : WeaponState)
    (hsh : s.isShooting = true) (ht : s.shootTimer ≤ 0)
    (hmag : 0 < s.magAmmo) :
    attemptShot p d s =
      { createBulletTrail p d { s with magAmmo := s.magAmmo - 1 } with
        shootTimer := fireRate } := by
  unfold attemptShot
  rw [if_pos ⟨hsh, ht⟩, shoot_fire p d s hmag]
  simp

theorem attemptShot_empty (p d : Vec3) (s : WeaponState)
    (hsh : s.isShooting = true) (ht : s.shootTimer ≤ 0)
    (hmag : s.magAmmo ≤ 0) :
    attemptShot p d s = reload s := by
  unfold attemptShot shoot
  rw [if_pos ⟨hsh, ht⟩, if_pos hmag]
  simp

theorem attemptShot_gated (p d : Vec3) (s : WeaponState)
    (hng : ¬(s.isShooting = true ∧ s.shootTimer ≤ 0)) :
    attemptShot p d s = s := by
  unfold attemptShot
  rw [if_neg hng]

theorem updateShooting_fire (dt : ℚ) (p d : Vec3) (s : WeaponState)
    (hl : s.isLoaded = true) (hsh : s.isShooting = true) (ht : s.shootTimer ≤ 0)
    (hmag : 0 < s.magAmmo) :
    updateShooting dt p d s =
      { createBulletTrail p d { s with magAmmo := s.magAmmo - 1 } with
        shootTimer := fireRate - dt } := by
  unfold updateShooting
  rw [if_neg (by simp [hl]), attemptShot_fire p d s hsh ht hmag]
  unfold decrementTimer
  have hc : (0 : ℚ) <
      ({ createBulletTrail p d { s with magAmmo := s.magAmmo - 1 } with
        shootTimer := fireRate } : WeaponState).shootTimer := by
    show (0 : ℚ) < fireRate
    norm_num [fireRate]
  rw [if_pos hc]

theorem updateShooting_gated (dt : ℚ) (p d : Vec3) (s : WeaponState)
    (hl : s.isLoaded = true) (ht : 0 < s.shootTimer) :
    updateShooting dt p d s = { s with shootTimer := s.shootTimer - dt } := by
  unfold updateShooting
  rw [if_neg (by simp [hl]),
    attemptShot_gated p d s (fun hc => absurd ht (not_lt.mpr hc.2))]
  unfold decrementTimer
  rw [if_pos ht]

theorem updateShooting_emptyMag (dt : ℚ) (p d : Vec3) (s : WeaponState)
    (hl : s.isLoaded = true) (hsh : s.isShooting = true) (ht : s.shootTimer ≤ 0)
    (hmag : s.magAmmo ≤ 0) :
    updateShooting dt p d s = reload s := by
  unfold updateShooting
  rw [if_neg (by simp [hl]), attemptShot_empty p d s hsh ht hmag]
  unfold decrementTimer
  rw [if_neg]
  rw [(reload_fields s).2.2.1]
  exact not_lt.mpr ht

/-- Claim C6 (amended): within a single trigger hold — no intervening
`startShooting` — two shot attempts of the update loop separated by less than
`fireRate` spawn exactly one projectile when the magazine is non-empty (the
early attempt is dropped by the still-positive gate timer, never queued), and
invoke `reload` exactly once when the magazine is empty and reserve ammo is
available (the first attempt coalesces into the reload, the second fires from
the refilled magazine).  A `startShooting` call, however, resets the gate
timer to zero to allow an immediate first shot, so two click-initiated
requests under `fireRate` apart each spawn a projectile (see the
counterexample). -/
theorem updateShooting_gate_single_hold (s : WeaponState) (dt1 dt2 : ℚ)
    (p d : Vec3)
    (hl : s.isLoaded = true) (hsh : s.isShooting = true) (ht : s.shootTimer ≤ 0)
    (hd1 : 0 < dt1) (hlt : dt1 < fireRate) :
    (0 < s.magAmmo →
      (updateShooting dt2 p d (updateShooting dt1 p d s)).bulletsFired =
          s.bulletsFired + 1 ∧
      (updateShooting dt2 p d (updateShooting dt1 p d s)).reloadCalls =
        s.reloadCalls) ∧
    (s.magAmmo = 0 → 0 < s.totalAmmo → 0 < s.maxAmmo →
      (updateShooting dt2 p d (updateShooting dt1 p d s)).reloadCalls =
        s.reloadCalls + 1 ∧
      (updateShooting dt2 p d (updateShooting dt1 p d s)).bulletsFired =
        s.bulletsFired + 1) := by
  constructor
  · intro hmag
    have hcb := createBulletTrail_fields p d { s with magAmmo := s.magAmmo - 1 }
    have h1 := updateShooting_fire dt1 p d s hl hsh ht hmag
    have hs1l : (updateShooting dt1 p d s).isLoaded = true := by
      rw [h1]; exact hcb.1.trans hl
    have hs1t : 0 < (updateShooting dt1 p d s).shootTimer := by
      rw [h1]
      show (0 : ℚ) < fireRate - dt1
      linarith
    have h2 := updateShooting_gated dt2 p d (updateShooting dt1 p d s) hs1l hs1t
    constructor
    · rw [h2]
      show (updateShooting dt1 p d s).bulletsFired = s.bulletsFired + 1
      rw [h1]
      exact hcb.2.2.2.2.2.2.1
    · rw [h2]
      show (updateShooting dt1 p d s).reloadCalls = s.reloadCalls
      rw [h1]
      exact hcb.2.2.2.2.2.2.2
  · intro hmag htot hmax
    have hr := reload_fields s
    have h1 := updateShooting_emptyMag dt1 p d s hl hsh ht (le_of_eq hmag)
    have hs1l : (updateShooting dt1 p d s).isLoaded = true := by
      rw [h1]; exact hr.1.trans hl
    have hs1sh : (updateShooting dt1 p d s).isShooting = true := by
      rw [h1]; exact hr.2.1.trans hsh
    have hs1t : (updateShooting dt1 p d s).shootTimer ≤ 0 := by
      rw [h1, hr.2.2.1]; exact ht
    have hs1m : 0 < (updateShooting dt1 p d s).magAmmo := by
      rw [h1]; exact reload_magAmmo_pos s hmag htot hmax
    have hcb2 := createBulletTrail_fields p d
      { updateShooting dt1 p d s with
        magAmmo := (updateShooting dt1 p d s).magAmmo - 1 }
    have h2 := updateShooting_fire dt2 p d (updateShooting dt1 p d s)
      hs1l hs1sh hs1t hs1m
    constructor
    · rw [h2]
      have : (createBulletTrail p d
          { updateShooting dt1 p d s with
            magAmmo := (updateShooting dt1 p d s).magAmmo - 1 }).reloadCalls =
          (updateShooting dt1 p d s).reloadCalls := hcb2.2.2.2.2.2.2.2
      rw [show ({ createBulletTrail p d
          { updateShooting dt1 p d s with
            magAmmo := (updateShooting dt1 p d s).magAmmo - 1 } with
          shootTimer := fireRate - dt2 } : WeaponState).reloadCalls =
          (createBulletTrail p d
            { updateShooting dt1 p d s with
              magAmmo := (updateShooting dt1 p d s).magAmmo - 1 }).reloadCalls
        from rfl, this, h1, hr.2.2.2.2]
    · rw [h2]
      have : (createBulletTrail p d
          { updateShooting dt1 p d s with
            magAmmo := (updateShooting dt1 p d s).magAmmo - 1 }).bulletsFired =
          (updateShooting dt1 p d s).bulletsFired + 1 := hcb2.2.2.2.2.2.2.1
      rw [show ({ createBulletTrail p d
          { updateShooting dt1 p d s with
            magAmmo := (updateShooting dt1 p d s).magAmmo - 1 } with
          shootTimer := fireRate - dt2 } : WeaponState).bulletsFired =
          (createBulletTrail p d
            { updateShooting dt1 p d s with
              magAmmo := (updateShooting dt1 p d s).magAmmo - 1 }).bulletsFired
        from rfl, this, h1, hr.2.2.2.1]

unseal Rat.mul Rat.inv Rat.add Rat.sub in
/-- Counterexample to claim C6 as stated: two click-initiated shoot requests
(each a `startShooting` call followed by a 16 ms frame) arrive 16 ms apart —
far less than the 100 ms minimum interval — with a full magazine, yet TWO
projectiles are spawned, not one: `startShooting` deliberately resets
`shootTimer` to 0 ("allow immediate first shot"), so the fire-rate gate does
not apply across separate clicks. -/
theorem startShooting_defeats_fireRate_gate :
    (updateShooting (16/1000) muzzle aimDir (startShooting
        (updateShooting (16/1000) muzzle aimDir
          (startShooting initialWeaponState)))).bulletsFired = 2 ∧
    ((16 : ℚ)/1000) < fireRate := by
  constructor
  · decide
  · decide

unseal Rat.mul Rat.inv Rat.add Rat.sub in
/-- Witness for the amended C6: with the trigger held, frames of 16 ms and
20 ms (both under the 100 ms interval) yield exactly one projectile on a full
magazine, and exactly one reload invocation on an empty magazine. -/
theorem updateShooting_gate_single_hold_witness :
    ((updateShooting (2/100) muzzle aimDir
        (updateShooting (16/1000) muzzle aimDir heldWeapon)).bulletsFired =
      heldWeapon.bulletsFired + 1) ∧
    ((updateShooting (2/100) muzzle aimDir
        (updateShooting (16/1000) muzzle aimDir heldEmptyWeapon)).reloadCalls =
      heldEmptyWeapon.reloadCalls + 1) :=
  ⟨((updateShooting_gate_single_hold heldWeapon (16/1000) (2/100) muzzle aimDir
      rfl rfl (by decide) (by decide) (by decide)).1 (by decide)).1,
    ((updateShooting_gate_single_hold heldEmptyWeapon (16/1000) (2/100) muzzle
      aimDir rfl rfl (by decide) (by decide) (by decide)).2 rfl (by decide)
      (by decide)).1⟩
